import Mathlib

/-!
# Verification of monoio's builder and command-passthrough core

Shallow embedding of `src/monoio/src/driver/op/cmd_passthrough.rs` and
`src/monoio/src/builder.rs`, with theorems settling the spec's claims.

Modelling conventions:
* A Rust payload type `T : Sized + Copy` is represented by its byte
  representation, a `List Nat` (each element a byte value); `size_of::<T>()`
  is the length of that list.
* `assert!` / `unimplemented!` failures (panics) are modelled as `Option`
  results (`none` = loud failure) or an explicit `panic`-like constructor.
* `u32` values are modelled as `Nat`; where the 32-bit domain matters a
  theorem carries the bound `< 2 ^ 32` as a hypothesis.
-/

namespace Monoio

/-! ## Cmd<T> and submission-queue entries (cmd_passthrough.rs) -/

/-- A narrow (64-byte) submission queue entry produced by
`opcode::UringCmd16::new(fd, cmd_op).cmd(buf)`: the target fd, the command
opcode, and the 16-byte inline command payload region. -/
structure Entry where
  fd : Nat
  cmd_op : Nat
  buf : List Nat
  deriving Repr, DecidableEq

/-- A wide (128-byte) submission queue entry produced by
`opcode::UringCmd80::new(fd, cmd_op).cmd(buf)`: 80-byte inline payload region. -/
structure Entry128 where
  fd : Nat
  cmd_op : Nat
  buf : List Nat
  deriving Repr, DecidableEq

/-- `Cmd<T>`: a passthrough command holding a shared fd (modelled by its raw
fd value), a `u32` opcode, and the payload `cmd : T` represented by its bytes.
`size_of::<T>()` is `cmd.length`. -/
structure Cmd where
  fd : Nat
  cmd_op : Nat
  cmd : List Nat
  deriving Repr, DecidableEq

/-- `size_of::<T>()` for the payload type of this command. -/
def Cmd.size (c : Cmd) : Nat := c.cmd.length

/-- The `#[repr(C)] union AsRawBytes<T> { cmd: T, buf: [u8; n] }` reinterpretation:
writing `cmd` and reading `buf` yields the payload's bytes in the low
`size_of::<T>()` positions, followed by bytes the program never initialised
(modelled as zeros; only the payload prefix is ever meaningful). Called only
under the `size_of::<T>() <= n` assertion, so no truncation occurs. -/
def asRawBytes (n : Nat) (cmd : List Nat) : List Nat :=
  cmd ++ List.replicate (n - cmd.length) 0

/-- `Cmd::uring_op`: asserts `size_of::<T>() <= 16` (`none` models the
assertion failure), then builds a narrow entry whose payload region is the
union reinterpretation of `self.cmd` as `[u8; 16]`. -/
def Cmd.uring_op (c : Cmd) : Option Entry :=
  if c.cmd.length ≤ 16 then
    some { fd := c.fd, cmd_op := c.cmd_op, buf := asRawBytes 16 c.cmd }
  else
    none

/-- `Cmd::uring_op_wide`: asserts `size_of::<T>() <= 80`, then builds a wide
entry whose payload region is the union reinterpretation of `self.cmd` as
`[u8; 80]`. -/
def Cmd.uring_op_wide (c : Cmd) : Option Entry128 :=
  if c.cmd.length ≤ 80 then
    some { fd := c.fd, cmd_op := c.cmd_op, buf := asRawBytes 80 c.cmd }
  else
    none

/-- Outcome of a legacy-path method: either a value or an `unimplemented!()`
panic. -/
inductive LegacyOutcome (α : Type) where
  | panic
  | ok (a : α)
  deriving Repr, DecidableEq

/-- Readiness direction (`crate::driver::ready::Direction`). -/
inductive Direction where
  | read
  | write
  deriving Repr, DecidableEq

/-- `Cmd::legacy_interest`: `unimplemented!()`. -/
def Cmd.legacy_interest (_c : Cmd) : LegacyOutcome (Option (Direction × Nat)) :=
  .panic

/-- `Cmd::legacy_call` (unix path): `unimplemented!()`. -/
def Cmd.legacy_call_unix (_c : Cmd) : LegacyOutcome Nat :=
  .panic

/-- `Cmd::legacy_call` (windows path): `unimplemented!()`. -/
def Cmd.legacy_call_windows (_c : Cmd) : LegacyOutcome Nat :=
  .panic

/-- The concrete `Cmd<[u8; 20]>` of the spec's scenario: a 20-byte payload. -/
def cmd20 : Cmd :=
  { fd := 3, cmd_op := 0x80, cmd := List.replicate 20 0xab }

/-- A concrete small command with an 8-byte payload. -/
def cmd8 : Cmd :=
  { fd := 3, cmd_op := 0x11, cmd := [1, 2, 3, 4, 5, 6, 7, 8] }

/-! ## RuntimeBuilder (builder.rs) -/

/-- `crate::blocking::BlockingStrategy`: panic on `spawn_blocking`, or execute
it inline on the current thread. -/
inductive BlockingStrategy where
  | Panic
  | ExecuteLocal
  deriving Repr, DecidableEq

/-- `crate::blocking::BlockingHandle`: either an attached thread pool
(modelled by an identifying number) or an empty handle carrying a strategy. -/
inductive BlockingHandle where
  | Attached (tp : Nat)
  | Empty (s : BlockingStrategy)
  deriving Repr, DecidableEq

/-- `BlockingStrategy::Panic.into()`, the default blocking handle. -/
def BlockingHandle.ofDefaultStrategy : BlockingHandle :=
  .Empty .Panic

/-- The phantom driver marker `D` of `RuntimeBuilder<D, S, C>`: the builder's
type parameter selects which `Buildable`/`build` path applies, so it is
modelled as data. -/
inductive DriverMark where
  | legacy
  | iouring
  | fusion
  | time (d : DriverMark)
  deriving Repr, DecidableEq

/-- `RuntimeBuilder<D, S, C>` fields: the optional ring depth `entries`, the
`io_uring::Builder` ring options `urb` (modelled opaquely by a number), and
the blocking-dispatch handle. The phantom marker is carried as data. -/
structure RuntimeBuilder where
  mark : DriverMark
  entries : Option Nat
  urb : Nat
  blocking_handle : BlockingHandle
  deriving Repr, DecidableEq

/-- `io_uring::IoUring::<S, C>::builder()`, the default ring options. -/
def defaultUrb : Nat := 0

/-- `RuntimeBuilder::new`: `entries: None`, default ring options, blocking
handle `BlockingStrategy::Panic.into()`. -/
def RuntimeBuilder.new (mark : DriverMark) : RuntimeBuilder :=
  { mark := mark
    entries := none
    urb := defaultUrb
    blocking_handle := .Empty .Panic }

/-- `Default for RuntimeBuilder`: delegates to `new`. -/
def RuntimeBuilder.defaultBuilder (mark : DriverMark) : RuntimeBuilder :=
  RuntimeBuilder.new mark

/-- `RuntimeBuilder::MIN_ENTRIES`. -/
def MIN_ENTRIES : Nat := 256

/-- `RuntimeBuilder::with_entries`: entries below `MIN_ENTRIES` are stored as
`MIN_ENTRIES`; others are stored as given. -/
def RuntimeBuilder.with_entries (b : RuntimeBuilder) (entries : Nat) :
    RuntimeBuilder :=
  if entries < MIN_ENTRIES then
    { b with entries := some MIN_ENTRIES }
  else
    { b with entries := some entries }

/-- `RuntimeBuilder::attach_thread_pool`: overwrites the blocking handle with
`BlockingHandle::Attached(tp)`. -/
def RuntimeBuilder.attach_thread_pool (b : RuntimeBuilder) (tp : Nat) :
    RuntimeBuilder :=
  { b with blocking_handle := .Attached tp }

/-- `RuntimeBuilder::with_blocking_strategy`: overwrites the blocking handle
with `BlockingHandle::Empty(strategy)`. -/
def RuntimeBuilder.with_blocking_strategy (b : RuntimeBuilder)
    (strategy : BlockingStrategy) : RuntimeBuilder :=
  { b with blocking_handle := .Empty strategy }

/-- One blocking-configuration call on the builder: either
`attach_thread_pool(tp)` or `with_blocking_strategy(s)`. -/
inductive BlockingCall where
  | attach (tp : Nat)
  | strategy (s : BlockingStrategy)
  deriving Repr, DecidableEq

/-- Apply one blocking-configuration call. -/
def RuntimeBuilder.applyCall (b : RuntimeBuilder) : BlockingCall → RuntimeBuilder
  | .attach tp => b.attach_thread_pool tp
  | .strategy s => b.with_blocking_strategy s

/-- Apply a sequence of blocking-configuration calls in order. -/
def RuntimeBuilder.applyCalls (b : RuntimeBuilder) (cs : List BlockingCall) :
    RuntimeBuilder :=
  cs.foldl RuntimeBuilder.applyCall b

/-- The blocking handle a single call writes. -/
def BlockingCall.handle : BlockingCall → BlockingHandle
  | .attach tp => .Attached tp
  | .strategy s => .Empty s

/-- The `time_wrap::TimeWrapable` capability marker: implemented exactly for
`IoUringDriver`, `LegacyDriver` and `FusionDriver` (never for an already
time-wrapped driver). -/
def TimeWrapable : DriverMark → Bool
  | .legacy => true
  | .iouring => true
  | .fusion => true
  | .time _ => false

/-- `RuntimeBuilder::enable_timer`: re-marks the builder as
`TimeDriver<D>`, carrying `entries`, `urb` and `blocking_handle` over. -/
def RuntimeBuilder.enable_timer (b : RuntimeBuilder) : RuntimeBuilder :=
  { mark := .time b.mark
    entries := b.entries
    urb := b.urb
    blocking_handle := b.blocking_handle }

/-- `RuntimeBuilder::enable_all`: delegates to `enable_timer`. -/
def RuntimeBuilder.enable_all (b : RuntimeBuilder) : RuntimeBuilder :=
  b.enable_timer

/-! ## Building a runtime (builder.rs `Buildable` impls and fusion build)

The `Buildable` impls in builder.rs call into code outside this excerpt:
`crate::runtime::Context::new`, `LegacyDriver::new[_with_entries]`,
`IoUringDriver::new[_with_entries]`, `crate::utils::detect_uring`, and
`TimeDriver::new` / its `handle`. Those are modelled from the spec below;
the control flow of `build` itself is translated from builder.rs. -/

/-- A timer handle, modelled opaquely by a number; `Clock`/timer internals are
out of scope. -/
abbrev TimeHandle := Nat

/-- Modelled from the spec: `crate::runtime::Context` (not under src/) carries
the blocking-dispatch handle and, if timers are enabled, a cloneable timer
handle. -/
structure Context where
  blocking_handle : BlockingHandle
  time_handle : Option TimeHandle
  deriving Repr, DecidableEq

/-- Modelled from the spec: `Context::new(blocking_handle)` (not under src/)
stores the blocking handle; a freshly built non-wrapped context exposes no
timer handle. -/
def Context.new (bh : BlockingHandle) : Context :=
  { blocking_handle := bh, time_handle := none }

/-- A constructed driver value: which backend is live and with what
configuration, plus `TimeDriver` decoration carrying its timer handle. -/
inductive Driver where
  | legacy (entries : Option Nat)
  | iouring (entries : Option Nat) (urb : Nat)
  | time (inner : Driver) (handle : TimeHandle)
  deriving Repr, DecidableEq

/-- `Runtime<D>`: one driver paired with one `Context`. -/
structure Runtime where
  driver : Driver
  context : Context
  deriving Repr, DecidableEq

/-- Modelled from the spec: the environment outside this excerpt that `build`
consults — `crate::utils::detect_uring()`'s probe result, whether
`LegacyDriver::new[_with_entries]` / `IoUringDriver::new[_with_entries]`
succeed (backend setup may fail with an I/O error), and the handle the newly
constructed timer driver exposes. -/
structure Env where
  uring_available : Bool
  legacy_ok : Bool
  iouring_ok : Bool
  fresh_handle : TimeHandle
  deriving Repr, DecidableEq

/-- Construction-failure error of `build` (an `io::Error`). -/
inductive IoErr where
  | legacyNewFailed
  | iouringNewFailed
  deriving Repr, DecidableEq

/-- `Buildable for LegacyDriver`: construct the legacy driver from `entries`
(`LegacyDriver::new_with_entries(entries)` when set, `LegacyDriver::new()`
otherwise; either may fail, failing the whole build), then pair it with
`Context::new(blocking_handle)`. -/
def buildLegacy (env : Env) (entries : Option Nat) (bh : BlockingHandle) :
    Except IoErr Runtime :=
  if env.legacy_ok then
    .ok { driver := .legacy entries, context := Context.new bh }
  else
    .error .legacyNewFailed

/-- `Buildable for IoUringDriver<S, C>`: construct the ring driver from `urb`
and `entries` (`IoUringDriver::new_with_entries(&urb, entries)` when set,
`IoUringDriver::new(&urb)` otherwise; either may fail, failing the whole
build), then pair it with `Context::new(blocking_handle)`. -/
def buildIoUring (env : Env) (entries : Option Nat) (urb : Nat)
    (bh : BlockingHandle) : Except IoErr Runtime :=
  if env.iouring_ok then
    .ok { driver := .iouring entries urb, context := Context.new bh }
  else
    .error .iouringNewFailed

/-- The `build` paths of builder.rs, by driver marker, returning the build
result together with the number of `detect_uring()` probes performed:
* `LegacyDriver`/`IoUringDriver`: forward to that backend's `Buildable`
  impl; no probe.
* `FusionDriver` (`RuntimeBuilder::<FusionDriver>::build`): probe
  `detect_uring()` once; on success build a concretely-typed `IoUringDriver`
  builder, otherwise a `LegacyDriver` builder, copying `entries`, `urb` and
  `blocking_handle` over verbatim, and delegate to that backend's
  `Buildable::build`.
* `TimeDriver<D>` (`Buildable for TimeDriver<D>`): build `D` from the same
  fields, then wrap the driver in `TimeDriver::new` and set
  `context.time_handle` to a clone of the timer driver's handle. (In
  builder.rs, `TimeDriver<FusionDriver>` probes first and then delegates to
  `TimeDriver<ConcreteDriver>`; composing the fusion step inside the time
  step produces the same runtime and the same single probe.) -/
def buildWith (env : Env) (mark : DriverMark) (entries : Option Nat)
    (urb : Nat) (bh : BlockingHandle) : Except IoErr Runtime × Nat :=
  match mark with
  | .legacy => (buildLegacy env entries bh, 0)
  | .iouring => (buildIoUring env entries urb bh, 0)
  | .fusion =>
      if env.uring_available then
        (buildIoUring env entries urb bh, 1)
      else
        (buildLegacy env entries bh, 1)
  | .time d =>
      let inner := buildWith env d entries urb bh
      match inner.1 with
      | .ok rt =>
          (.ok { driver := .time rt.driver env.fresh_handle
                 context := { rt.context with
                              time_handle := some env.fresh_handle } },
           inner.2)
      | .error e => (.error e, inner.2)

/-- `build()` on a builder: dispatch on the phantom marker with the builder's
own fields. -/
def RuntimeBuilder.build (env : Env) (b : RuntimeBuilder) :
    Except IoErr Runtime × Nat :=
  buildWith env b.mark b.entries b.urb b.blocking_handle

/-- Whether a driver marker is `TimeDriver`-wrapped. -/
def DriverMark.isTimeWrapped : DriverMark → Bool
  | .time _ => true
  | _ => false

/-! ## General lemmas about builds -/

/-- Every successful build stores the builder's blocking handle unchanged in
the resulting context. -/
theorem buildWith_ok_blocking (env : Env) (mark : DriverMark) :
    ∀ entries urb bh rt,
      (buildWith env mark entries urb bh).1 = Except.ok rt →
      rt.context.blocking_handle = bh := by
  induction mark with
  | legacy =>
      intro entries urb bh rt h
      simp only [buildWith, buildLegacy] at h
      split at h <;> simp_all [Context.new] <;> rw [← h]
  | iouring =>
      intro entries urb bh rt h
      simp only [buildWith, buildIoUring] at h
      split at h <;> simp_all [Context.new] <;> rw [← h]
  | fusion =>
      intro entries urb bh rt h
      simp only [buildWith, buildLegacy, buildIoUring] at h
      split at h <;> split at h <;> simp_all [Context.new] <;> rw [← h]
  | time d ih =>
      intro entries urb bh rt h
      simp only [buildWith] at h
      split at h
      case _ rt' heq =>
        simp only [Prod.fst, Except.ok.injEq] at h
        subst h
        exact ih entries urb bh rt' heq
      case _ e heq =>
        simp at h

/-- Every successful build exposes a timer handle exactly when the driver
marker is `TimeDriver`-wrapped, and then the handle is the freshly
constructed timer driver's handle. -/
theorem buildWith_ok_time_handle (env : Env) (mark : DriverMark) :
    ∀ entries urb bh rt,
      (buildWith env mark entries urb bh).1 = Except.ok rt →
      rt.context.time_handle =
        (if mark.isTimeWrapped then some env.fresh_handle else none) := by
  induction mark with
  | legacy =>
      intro entries urb bh rt h
      simp only [buildWith, buildLegacy] at h
      split at h <;> simp_all [Context.new, DriverMark.isTimeWrapped] <;>
        rw [← h]
  | iouring =>
      intro entries urb bh rt h
      simp only [buildWith, buildIoUring] at h
      split at h <;> simp_all [Context.new, DriverMark.isTimeWrapped] <;>
        rw [← h]
  | fusion =>
      intro entries urb bh rt h
      simp only [buildWith, buildLegacy, buildIoUring] at h
      split at h <;> split at h <;>
        simp_all [Context.new, DriverMark.isTimeWrapped] <;> rw [← h]
  | time d _ =>
      intro entries urb bh rt h
      simp only [buildWith] at h
      split at h
      case _ rt' heq =>
        simp only [Prod.fst, Except.ok.injEq] at h
        subst h
        simp [DriverMark.isTimeWrapped]
      case _ e heq =>
        simp at h

/-! ## Claim theorems -/

/-- C1: narrow entry construction (`Cmd::uring_op`) succeeds exactly when
`size_of::<T>() <= 16` and fails the assertion otherwise; wide construction
(`Cmd::uring_op_wide`) succeeds exactly when `size_of::<T>() <= 80`;
a payload is never silently truncated. In particular, for `Cmd<[u8; 20]>`
narrow construction fails the assertion and wide construction succeeds. -/
theorem C1_size_assertions :
    (∀ c : Cmd, c.uring_op.isSome ↔ c.size ≤ 16) ∧
    (∀ c : Cmd, c.uring_op_wide.isSome ↔ c.size ≤ 80) ∧
    cmd20.uring_op = none ∧ cmd20.uring_op_wide.isSome := by
  refine ⟨?_, ?_, ?_, ?_⟩
  · intro c
    simp only [Cmd.uring_op, Cmd.size]
    split <;> simp_all
  · intro c
    simp only [Cmd.uring_op_wide, Cmd.size]
    split <;> simp_all
  · decide
  · decide

/-- C2: for `size_of::<T>() <= 16`, `Cmd::uring_op` succeeds and the entry's
16-byte payload region starts with exactly the payload's bytes (the union
round-trip is lossless); for `16 < size_of::<T>() <= 80`, `Cmd::uring_op_wide`
succeeds with a lossless round-trip into the 80-byte region. -/
theorem C2_lossless_roundtrip (c : Cmd) :
    (c.size ≤ 16 →
      ∃ e : Entry, c.uring_op = some e ∧
        e.buf.take c.size = c.cmd ∧ e.buf.length = 16 ∧
        e.fd = c.fd ∧ e.cmd_op = c.cmd_op) ∧
    (16 < c.size → c.size ≤ 80 →
      ∃ e : Entry128, c.uring_op_wide = some e ∧
        e.buf.take c.size = c.cmd ∧ e.buf.length = 80 ∧
        e.fd = c.fd ∧ e.cmd_op = c.cmd_op) := by
  constructor
  · intro h
    simp only [Cmd.size] at h
    refine ⟨{ fd := c.fd, cmd_op := c.cmd_op, buf := asRawBytes 16 c.cmd },
            ?_, ?_, ?_, rfl, rfl⟩
    · simp [Cmd.uring_op, h]
    · simpa [Cmd.size, asRawBytes] using List.take_left c.cmd _
    · simp [asRawBytes]
      omega
  · intro _ h
    simp only [Cmd.size] at h
    refine ⟨{ fd := c.fd, cmd_op := c.cmd_op, buf := asRawBytes 80 c.cmd },
            ?_, ?_, ?_, rfl, rfl⟩
    · simp [Cmd.uring_op_wide, h]
    · simpa [Cmd.size, asRawBytes] using List.take_left c.cmd _
    · simp [asRawBytes]
      omega

/-- C2 witness: the 8-byte command round-trips through the narrow entry and
the 20-byte command round-trips through the wide entry. -/
theorem C2_lossless_roundtrip_witness :
    (∃ e : Entry, cmd8.uring_op = some e ∧
        e.buf.take cmd8.size = cmd8.cmd ∧ e.buf.length = 16 ∧
        e.fd = cmd8.fd ∧ e.cmd_op = cmd8.cmd_op) ∧
    (∃ e : Entry128, cmd20.uring_op_wide = some e ∧
        e.buf.take cmd20.size = cmd20.cmd ∧ e.buf.length = 80 ∧
        e.fd = cmd20.fd ∧ e.cmd_op = cmd20.cmd_op) :=
  ⟨(C2_lossless_roundtrip cmd8).1 (by decide),
   (C2_lossless_roundtrip cmd20).2 (by decide) (by decide)⟩

/-- C3: `with_entries(e)` stores exactly `max e 256`: values below 256 are
silently raised to 256 (never rejected), values of 256 or more are stored as
given. -/
theorem C3_with_entries_clamp (b : RuntimeBuilder) (e : Nat)
    (h : e < 2 ^ 32) :
    (b.with_entries e).entries = some (max e 256) := by
  simp only [RuntimeBuilder.with_entries, MIN_ENTRIES]
  split <;> simp <;> omega

/-- C3 witness: a requested depth of 100 is raised to 256 = max 100 256. -/
theorem C3_with_entries_clamp_witness :
    ((RuntimeBuilder.new .legacy).with_entries 100).entries =
      some (max 100 256) :=
  C3_with_entries_clamp (RuntimeBuilder.new .legacy) 100 (by norm_num)

/-- C10: the stored ring depth is fully determined by the most recent
`with_entries` call: `b.with_entries(e1).with_entries(e2)` is the very same
builder as `b.with_entries(e2)` (in particular `with_entries` is
idempotent). -/
theorem C10_with_entries_last_call_wins (b : RuntimeBuilder) (e1 e2 : Nat)
    (h1 : e1 < 2 ^ 32) (h2 : e2 < 2 ^ 32) :
    (b.with_entries e1).with_entries e2 = b.with_entries e2 := by
  simp only [RuntimeBuilder.with_entries, MIN_ENTRIES]
  split <;> split <;> rfl

/-- C10 witness: setting 100 then 512 equals setting 512 directly. -/
theorem C10_with_entries_last_call_wins_witness :
    ((RuntimeBuilder.new .legacy).with_entries 100).with_entries 512 =
      (RuntimeBuilder.new .legacy).with_entries 512 :=
  C10_with_entries_last_call_wins (RuntimeBuilder.new .legacy) 100 512
    (by norm_num) (by norm_num)

/-- C4: after any sequence of `attach_thread_pool` / `with_blocking_strategy`
calls ending in a call `c`, the builder's blocking handle is exactly the
handle written by `c` (`Attached` for a pool, `Empty` for a strategy),
regardless of everything before it; and a successful build stores that same
handle in the resulting `Context`. -/
theorem C4_blocking_last_write_wins (b : RuntimeBuilder)
    (cs : List BlockingCall) (c : BlockingCall) (env : Env) (rt : Runtime)
    (h : (RuntimeBuilder.build env (b.applyCalls (cs ++ [c]))).1 =
      Except.ok rt) :
    (b.applyCalls (cs ++ [c])).blocking_handle = c.handle ∧
    rt.context.blocking_handle = c.handle := by
  have hlast : (b.applyCalls (cs ++ [c])).blocking_handle = c.handle := by
    simp only [RuntimeBuilder.applyCalls, List.foldl_append, List.foldl_cons,
      List.foldl_nil]
    cases c <;>
      simp [RuntimeBuilder.applyCall, RuntimeBuilder.attach_thread_pool,
        RuntimeBuilder.with_blocking_strategy, BlockingCall.handle]
  refine ⟨hlast, ?_⟩
  have := buildWith_ok_blocking env (b.applyCalls (cs ++ [c])).mark
    (b.applyCalls (cs ++ [c])).entries (b.applyCalls (cs ++ [c])).urb
    (b.applyCalls (cs ++ [c])).blocking_handle rt h
  rw [this, hlast]

/-- C4 witness: attaching pool 5 then setting `ExecuteLocal` leaves the
strategy; interleaving the other way leaves the pool — in a built context. -/
theorem C4_blocking_last_write_wins_witness :
    (((RuntimeBuilder.new .legacy).applyCalls
        [.attach 5, .strategy .ExecuteLocal]).blocking_handle =
          BlockingHandle.Empty .ExecuteLocal ∧
      ({ driver := .legacy none
         context := { blocking_handle := .Empty .ExecuteLocal
                      time_handle := none } } :
            Runtime).context.blocking_handle =
        BlockingHandle.Empty .ExecuteLocal) ∧
    (((RuntimeBuilder.new .legacy).applyCalls
        [.strategy .ExecuteLocal, .attach 5]).blocking_handle =
          BlockingHandle.Attached 5 ∧
      ({ driver := .legacy none
         context := { blocking_handle := .Attached 5
                      time_handle := none } } :
            Runtime).context.blocking_handle = BlockingHandle.Attached 5) :=
  ⟨C4_blocking_last_write_wins (RuntimeBuilder.new .legacy) [.attach 5]
      (.strategy .ExecuteLocal) ⟨false, true, true, 7⟩ _ rfl,
   C4_blocking_last_write_wins (RuntimeBuilder.new .legacy)
      [.strategy .ExecuteLocal] (.attach 5) ⟨false, true, true, 7⟩ _ rfl⟩

/-- C5: `build()` on a `FusionDriver` builder probes `detect_uring()` exactly
once, and its result is exactly the result of the concretely-typed
`IoUringDriver` builder's build when the probe reports the ring available,
and of the `LegacyDriver` builder's build otherwise — with `entries`, `urb`
and `blocking_handle` passed over verbatim in both cases. -/
theorem C5_fusion_probe_once_and_delegate (env : Env) (entries : Option Nat)
    (urb : Nat) (bh : BlockingHandle) :
    (buildWith env .fusion entries urb bh).2 = 1 ∧
    (buildWith env .fusion entries urb bh).1 =
      (if env.uring_available then
        (buildWith env .iouring entries urb bh).1
      else
        (buildWith env .legacy entries urb bh).1) := by
  constructor
  · simp only [buildWith]
    split <;> rfl
  · simp only [buildWith]
    split <;> simp_all

/-- C6: a successfully built runtime has a timer handle in its `Context`
(namely the fresh timer driver's handle) exactly when the driver marker is
`TimeDriver`-wrapped; otherwise the context exposes none. -/
theorem C6_time_handle_iff_wrapped (env : Env) (mark : DriverMark)
    (entries : Option Nat) (urb : Nat) (bh : BlockingHandle) (rt : Runtime)
    (h : (buildWith env mark entries urb bh).1 = Except.ok rt) :
    (mark.isTimeWrapped = true →
      rt.context.time_handle = some env.fresh_handle) ∧
    (mark.isTimeWrapped = false → rt.context.time_handle = none) := by
  have := buildWith_ok_time_handle env mark entries urb bh rt h
  constructor
  · intro hw
    rw [this, hw]
    rfl
  · intro hw
    rw [this, hw]
    rfl

/-- C6 witness: a legacy build exposes no timer handle, a
`TimeDriver<LegacyDriver>` build exposes the fresh handle 7. -/
theorem C6_time_handle_iff_wrapped_witness :
    ({ driver := .legacy none
       context := { blocking_handle := .Empty .Panic
                    time_handle := none } } :
          Runtime).context.time_handle = none ∧
    ({ driver := .time (.legacy none) 7
       context := { blocking_handle := .Empty .Panic
                    time_handle := some 7 } } :
          Runtime).context.time_handle = some (7 : TimeHandle) :=
  ⟨(C6_time_handle_iff_wrapped ⟨false, true, true, 7⟩ .legacy none 0
      (.Empty .Panic) _ rfl).2 rfl,
   (C6_time_handle_iff_wrapped ⟨false, true, true, 7⟩ (.time .legacy) none 0
      (.Empty .Panic) _ rfl).1 rfl⟩

/-- C7: `enable_timer()` on a time-wrappable builder yields the
`TimeDriver<D>`-marked builder with `entries`, `urb` and `blocking_handle`
exactly those of the input (nothing discarded), and `enable_all()` is the
identical transformation. -/
theorem C7_enable_timer_carries_config (b : RuntimeBuilder)
    (h : TimeWrapable b.mark = true) :
    b.enable_timer.entries = b.entries ∧
    b.enable_timer.urb = b.urb ∧
    b.enable_timer.blocking_handle = b.blocking_handle ∧
    b.enable_timer.mark = .time b.mark ∧
    b.enable_all = b.enable_timer :=
  ⟨rfl, rfl, rfl, rfl, rfl⟩

/-- C7 witness: on a configured legacy builder, `enable_timer` keeps entries,
options and blocking handle, and `enable_all` coincides. -/
theorem C7_enable_timer_carries_config_witness :
    (((RuntimeBuilder.new .legacy).with_entries 512).enable_timer.entries =
        ((RuntimeBuilder.new .legacy).with_entries 512).entries ∧
      ((RuntimeBuilder.new .legacy).with_entries 512).enable_timer.urb =
        ((RuntimeBuilder.new .legacy).with_entries 512).urb ∧
      ((RuntimeBuilder.new
          .legacy).with_entries 512).enable_timer.blocking_handle =
        ((RuntimeBuilder.new .legacy).with_entries 512).blocking_handle ∧
      ((RuntimeBuilder.new .legacy).with_entries 512).enable_timer.mark =
        .time ((RuntimeBuilder.new .legacy).with_entries 512).mark ∧
      ((RuntimeBuilder.new .legacy).with_entries 512).enable_all =
        ((RuntimeBuilder.new .legacy).with_entries 512).enable_timer) :=
  C7_enable_timer_carries_config
    ((RuntimeBuilder.new .legacy).with_entries 512) (by decide)

/-- C8: for every `Cmd<T>` the legacy-path methods never return a value:
`legacy_interest` and both platform variants of `legacy_call` are
`unimplemented!()` stubs that panic immediately on every input. -/
theorem C8_legacy_stubs_always_panic (c : Cmd) :
    c.legacy_interest = .panic ∧
    (∀ r, c.legacy_interest ≠ .ok r) ∧
    c.legacy_call_unix = .panic ∧
    (∀ r, c.legacy_call_unix ≠ .ok r) ∧
    c.legacy_call_windows = .panic ∧
    (∀ r, c.legacy_call_windows ≠ .ok r) := by
  refine ⟨rfl, ?_, rfl, ?_, rfl, ?_⟩ <;>
    intro r <;>
    simp [Cmd.legacy_interest, Cmd.legacy_call_unix, Cmd.legacy_call_windows]

/-- C9: a fresh builder (`new()`, and `Default::default()` which delegates to
it) has no ring depth set and the blocking handle
`BlockingHandle::Empty(BlockingStrategy::Panic)`; building it without
`enable_timer()` (a non-`TimeDriver` marker) yields a `Context` with no timer
handle and that default blocking configuration. -/
theorem C9_fresh_builder_defaults (mark : DriverMark) (env : Env)
    (rt : Runtime) (hm : mark.isTimeWrapped = false)
    (h : (RuntimeBuilder.build env (RuntimeBuilder.new mark)).1 =
      Except.ok rt) :
    (RuntimeBuilder.new mark).entries = none ∧
    (RuntimeBuilder.new mark).blocking_handle = .Empty .Panic ∧
    RuntimeBuilder.defaultBuilder mark = RuntimeBuilder.new mark ∧
    rt.context.time_handle = none ∧
    rt.context.blocking_handle = .Empty .Panic := by
  refine ⟨rfl, rfl, rfl, ?_, ?_⟩
  · have := buildWith_ok_time_handle env mark none defaultUrb
      (.Empty .Panic) rt h
    rw [this, hm]
    rfl
  · exact buildWith_ok_blocking env mark none defaultUrb (.Empty .Panic) rt h

/-- C9 witness: a fresh legacy builder built in an environment where legacy
setup succeeds yields the default context. -/
theorem C9_fresh_builder_defaults_witness :
    (RuntimeBuilder.new .legacy).entries = none ∧
    (RuntimeBuilder.new .legacy).blocking_handle =
      BlockingHandle.Empty .Panic ∧
    RuntimeBuilder.defaultBuilder .legacy = RuntimeBuilder.new .legacy ∧
    ({ driver := .legacy none
       context := { blocking_handle := .Empty .Panic
                    time_handle := none } } :
          Runtime).context.time_handle = none ∧
    ({ driver := .legacy none
       context := { blocking_handle := .Empty .Panic
                    time_handle := none } } :
          Runtime).context.blocking_handle =
      BlockingHandle.Empty .Panic :=
  C9_fresh_builder_defaults .legacy ⟨false, true, true, 7⟩ _ rfl rfl

end Monoio
